import Mathlib

/-
  Shallow embedding of `display-interface` (src/src/lib.rs).

  The crate defines an error enumeration `DisplayError`, a borrowed
  data-format carrier `DataFormat<'a>`, two `From` conversions into the
  carrier, and the `WriteOnlyDataCommand` trait with two methods taking
  `&mut self` and returning `Result<(), DisplayError>`.
-/

/-- An element of a Rust `u8` slice: an unsigned 8-bit value. -/
abbrev U8Val := Fin 256

/-- An element of a Rust `u16` slice: an unsigned 16-bit value. -/
abbrev U16Val := Fin 65536

/-- Embedding of a Rust shared slice `&'a [α]`: a read-only borrowed view
of a sequence of elements. The borrow does not own the data; only the
referenced sequence is observable. -/
structure Slice (α : Type) where
  data : List α
deriving DecidableEq

/-- Embedding of a Rust mutable slice `&'a mut [α]`: a read-write borrowed
view of a sequence of elements, distinguished nominally from `Slice`
because the callee may mutate the referenced buffer in place. -/
structure MutSlice (α : Type) where
  data : List α
deriving DecidableEq

/-- `DisplayError` from src/src/lib.rs lines 16-27: a ubiquitous error type
for all kinds of problems which could happen when communicating with a
display. Five variants, none carrying a payload. -/
inductive DisplayError where
  | InvalidFormatError
  | BusWriteError
  | DCError
  | CSError
  | DataFormatNotImplemented
deriving DecidableEq

/-- The discriminant of a `DisplayError` value: the tag distinguishing its
variant, the only observable content since no variant has a payload. -/
def DisplayError.discriminant : DisplayError → Nat
  | .InvalidFormatError => 0
  | .BusWriteError => 1
  | .DCError => 2
  | .CSError => 3
  | .DataFormatNotImplemented => 4

/-- The `Clone` implementation derived by `#[derive(Clone)]` on
`DisplayError`: it matches on the variant and rebuilds the same variant. -/
def DisplayError.clone : DisplayError → DisplayError
  | .InvalidFormatError => .InvalidFormatError
  | .BusWriteError => .BusWriteError
  | .DCError => .DCError
  | .CSError => .CSError
  | .DataFormatNotImplemented => .DataFormatNotImplemented

/-- `DataFormat<'a>` from src/src/lib.rs lines 33-42: the data-format
wrapper around slices of various widths. `U8` and `U16` hold shared
(read-only) borrows; `U16BE` and `U16LE` hold mutable (read-write) borrows
of 16-bit values. -/
inductive DataFormat where
  | U8 (s : Slice U8Val)
  | U16 (s : Slice U16Val)
  | U16BE (s : MutSlice U16Val)
  | U16LE (s : MutSlice U16Val)
deriving DecidableEq

/-- `impl From<&'a [u8]> for DataFormat<'a>` (src/src/lib.rs lines 44-48):
`fn from(arr_ref: &'a [u8]) -> Self { Self::U8(arr_ref) }`. -/
def DataFormat.fromU8Slice (arr_ref : Slice U8Val) : DataFormat :=
  DataFormat.U8 arr_ref

/-- `impl From<&'a [u16]> for DataFormat<'a>` (src/src/lib.rs lines 50-54):
`fn from(arr_ref: &'a [u16]) -> Self { Self::U16(arr_ref) }`. -/
def DataFormat.fromU16Slice (arr_ref : Slice U16Val) : DataFormat :=
  DataFormat.U16 arr_ref

/-- Pattern-matching a carrier against the `U8` arm: yields the borrowed
byte slice when the carrier is the `U8` variant, and nothing otherwise. -/
def DataFormat.matchU8 : DataFormat → Option (Slice U8Val)
  | .U8 s => some s
  | _ => none

/-- Pattern-matching a carrier against the `U16` arm: yields the borrowed
native-order 16-bit slice when the carrier is the `U16` variant. -/
def DataFormat.matchU16 : DataFormat → Option (Slice U16Val)
  | .U16 s => some s
  | _ => none

/-- `WriteOnlyDataCommand` from src/src/lib.rs lines 59-65: a write-only
interface for a display with separate data and command modes. `&mut self`
is embedded as explicit state passing: each operation consumes the adapter
state `S`, takes a `DataFormat` carrier as its only other argument, and
returns the updated state together with `Result<(), DisplayError>`
(embedded as `Except DisplayError Unit`). -/
structure WriteOnlyDataCommand (S : Type) where
  send_commands : S → DataFormat → S × Except DisplayError Unit
  send_data : S → DataFormat → S × Except DisplayError Unit

/-- C1: The error type enumerates exactly five failure kinds — invalid
format, bus-write failure, data/command-signal failure, chip-select
failure, and format-not-implemented — these five are pairwise distinct
and exhaustive — and every failure returned across the contract boundary
(the `Except DisplayError Unit` result of either trait operation) is
exactly one of these five kinds. -/
theorem C1_error_taxonomy_five_kinds :
    (∀ e : DisplayError,
      e = .InvalidFormatError ∨ e = .BusWriteError ∨ e = .DCError ∨
      e = .CSError ∨ e = .DataFormatNotImplemented) ∧
    ([DisplayError.InvalidFormatError, .BusWriteError, .DCError, .CSError,
      .DataFormatNotImplemented].Nodup) ∧
    (∀ (S : Type) (impl : WriteOnlyDataCommand S) (s : S) (df : DataFormat),
      ((impl.send_commands s df).2 = Except.ok () ∨
        ∃ e : DisplayError, (impl.send_commands s df).2 = Except.error e ∧
          (e = .InvalidFormatError ∨ e = .BusWriteError ∨ e = .DCError ∨
           e = .CSError ∨ e = .DataFormatNotImplemented)) ∧
      ((impl.send_data s df).2 = Except.ok () ∨
        ∃ e : DisplayError, (impl.send_data s df).2 = Except.error e ∧
          (e = .InvalidFormatError ∨ e = .BusWriteError ∨ e = .DCError ∨
           e = .CSError ∨ e = .DataFormatNotImplemented))) := by
  refine ⟨?_, by decide, ?_⟩
  · intro e; cases e <;> simp
  · intro S impl s df
    constructor
    · cases (impl.send_commands s df).2 with
      | ok u => left; cases u; rfl
      | error e =>
        right
        exact ⟨e, rfl, by cases e <;> simp⟩
    · cases (impl.send_data s df).2 with
      | ok u => left; cases u; rfl
      | error e =>
        right
        exact ⟨e, rfl, by cases e <;> simp⟩

/-- C2: For every byte slice `s`, the implicit conversion of `s` into the
data-format carrier produces the `U8` ("bytes") variant, and
pattern-matching that carrier against the `U8` arm yields back exactly
`s`: the conversion is lossless and identity-preserving on the referenced
bytes. -/
theorem C2_from_u8_roundtrip :
    ∀ s : List U8Val,
      DataFormat.fromU8Slice ⟨s⟩ = DataFormat.U8 ⟨s⟩ ∧
      (DataFormat.fromU8Slice ⟨s⟩).matchU8 = some ⟨s⟩ := by
  intro s
  exact ⟨rfl, rfl⟩

/-- C3: For every native-order 16-bit slice `s`, the implicit conversion of
`s` into the data-format carrier produces the `U16` ("words-native")
variant, and pattern-matching that carrier against the `U16` arm yields
back exactly `s`: the same lossless round-trip as for byte slices. -/
theorem C3_from_u16_roundtrip :
    ∀ s : List U16Val,
      DataFormat.fromU16Slice ⟨s⟩ = DataFormat.U16 ⟨s⟩ ∧
      (DataFormat.fromU16Slice ⟨s⟩).matchU16 = some ⟨s⟩ := by
  intro s
  exact ⟨rfl, rfl⟩

/-- C4: The transmission contract exposes exactly two operations,
send-commands and send-data: every value of the contract is fully
determined by those two fields, each operation takes the adapter state
(exclusive mutable access, embedded as state passing) plus a data-format
carrier as its only argument, and each call returns either success (unit)
or exactly one error kind. -/
theorem C4_contract_two_operations :
    (∀ (S : Type) (w : WriteOnlyDataCommand S),
      w = ⟨w.send_commands, w.send_data⟩) ∧
    (∀ (S : Type) (impl : WriteOnlyDataCommand S) (s : S) (df : DataFormat),
      ((impl.send_commands s df).2 = Except.ok () ∨
        ∃! e : DisplayError, (impl.send_commands s df).2 = Except.error e) ∧
      ((impl.send_data s df).2 = Except.ok () ∨
        ∃! e : DisplayError, (impl.send_data s df).2 = Except.error e)) := by
  constructor
  · intro S w; cases w; rfl
  · intro S impl s df
    constructor
    · cases (impl.send_commands s df).2 with
      | ok u => left; cases u; rfl
      | error e =>
        right
        exact ⟨e, rfl, fun f hf => ((Except.error.injEq _ _).mp hf).symm⟩
    · cases (impl.send_data s df).2 with
      | ok u => left; cases u; rfl
      | error e =>
        right
        exact ⟨e, rfl, fun f hf => ((Except.error.injEq _ _).mp hf).symm⟩

/-- C5: Every value of the data-format carrier is built from a borrowed
slice and these four variants are the only ones defined: `U8` is a
read-only borrow (`Slice`) of 8-bit values, `U16` a read-only borrow of
16-bit values, and `U16BE` and `U16LE` are read-write borrows (`MutSlice`)
of 16-bit values, so in-place byte-swapping is possible. -/
theorem C5_carrier_four_borrowed_variants :
    ∀ df : DataFormat,
      (∃ s : Slice U8Val, df = DataFormat.U8 s) ∨
      (∃ s : Slice U16Val, df = DataFormat.U16 s) ∨
      (∃ s : MutSlice U16Val, df = DataFormat.U16BE s) ∨
      (∃ s : MutSlice U16Val, df = DataFormat.U16LE s) := by
  intro df
  cases df with
  | U8 s => exact Or.inl ⟨s, rfl⟩
  | U16 s => exact Or.inr (Or.inl ⟨s, rfl⟩)
  | U16BE s => exact Or.inr (Or.inr (Or.inl ⟨s, rfl⟩))
  | U16LE s => exact Or.inr (Or.inr (Or.inr ⟨s, rfl⟩))

/-- C6: The two implicit conversions into the carrier (the only ones the
source defines) produce respectively the `U8` ("bytes") variant and the
`U16` ("words-native") variant; neither conversion ever produces the
big-endian or little-endian variants, which therefore must be constructed
explicitly by the caller. -/
theorem C6_conversions_never_endian_variants :
    (∀ s : Slice U8Val, ∃ t : Slice U8Val, DataFormat.fromU8Slice s = DataFormat.U8 t) ∧
    (∀ s : Slice U16Val, ∃ t : Slice U16Val, DataFormat.fromU16Slice s = DataFormat.U16 t) ∧
    (∀ (s : Slice U8Val) (m : MutSlice U16Val),
      DataFormat.fromU8Slice s ≠ DataFormat.U16BE m ∧
      DataFormat.fromU8Slice s ≠ DataFormat.U16LE m) ∧
    (∀ (s : Slice U16Val) (m : MutSlice U16Val),
      DataFormat.fromU16Slice s ≠ DataFormat.U16BE m ∧
      DataFormat.fromU16Slice s ≠ DataFormat.U16LE m) := by
  refine ⟨fun s => ⟨s, rfl⟩, fun s => ⟨s, rfl⟩, fun s m => ⟨?_, ?_⟩, fun s m => ⟨?_, ?_⟩⟩ <;>
    simp [DataFormat.fromU8Slice, DataFormat.fromU16Slice]

/-- C7: The error type is a value type carrying no state beyond its
discriminant: two error values are equal exactly when their discriminants
are equal, so the discriminant is the whole observable content, and
comparison/matching of error values reduces to comparison of
discriminants. -/
theorem C7_error_discriminant_identity :
    ∀ e1 e2 : DisplayError,
      e1 = e2 ↔ e1.discriminant = e2.discriminant := by
  intro e1 e2
  constructor
  · intro h; rw [h]
  · intro h; cases e1 <;> cases e2 <;> first | rfl | simp [DisplayError.discriminant] at h

/-- C9: Both implicit conversions into the carrier are total functions:
for every slice, including the empty slice, the conversion is defined,
yields a carrier borrowing exactly that slice, and in particular both
conversions succeed on the empty slice. -/
theorem C9_conversions_total :
    (∀ l : List U8Val,
      ∃ t : Slice U8Val, DataFormat.fromU8Slice ⟨l⟩ = DataFormat.U8 t ∧ t.data = l) ∧
    (∀ l : List U16Val,
      ∃ t : Slice U16Val, DataFormat.fromU16Slice ⟨l⟩ = DataFormat.U16 t ∧ t.data = l) ∧
    DataFormat.fromU8Slice ⟨[]⟩ = DataFormat.U8 ⟨[]⟩ ∧
    DataFormat.fromU16Slice ⟨[]⟩ = DataFormat.U16 ⟨[]⟩ := by
  exact ⟨fun l => ⟨⟨l⟩, rfl, rfl⟩, fun l => ⟨⟨l⟩, rfl, rfl⟩, rfl, rfl⟩

/-- C10: For every error value `e`, cloning `e` (by the derived `Clone`
implementation, which matches on the variant and rebuilds it) yields a
value with the same discriminant as `e`; since no variant carries a
payload, clone acts as the identity on the error's observable content. -/
theorem C10_clone_preserves_discriminant :
    ∀ e : DisplayError,
      (e.clone).discriminant = e.discriminant ∧ e.clone = e := by
  intro e
  cases e <;> exact ⟨rfl, rfl⟩
